import Mathlib

/-!
Shallow embedding of src/src/main/flight/pid_autotune.c (INAV PID autotune
subsystem) and verification of its specification claims.

Modelling conventions:
* C `float` values (gains, rates, controller output) are embedded as `ℚ`;
  float arithmetic is modelled as exact rational arithmetic.
* `timeMs_t` (`uint32_t` milliseconds) is embedded as `ℕ`; the C unsigned
  subtraction is modelled by `uSub32`, and `timeDelta_t` (`int32_t`) by
  `toInt32` of that unsigned difference.
* The collaborator state the file reads and writes (the live pid bank,
  the AUTO_TUNE flight-mode flag, `schedulePidGainsUpdate`) lives in
  headers outside the excerpt and is modelled from the spec, see the
  doc comments on `AutotuneWorld` and the constants below.
-/

namespace PidAutotune

/-- XYZ_AXIS_COUNT from common/axis.h (roll, pitch, yaw). -/
abbrev XYZ_AXIS_COUNT : ℕ := 3

/-- A flight dynamics axis index (flight_dynamics_index_t). -/
abbrev Axis : Type := Fin XYZ_AXIS_COUNT

def FD_ROLL : Axis := 0
def FD_PITCH : Axis := 1
def FD_YAW : Axis := 2

/-- pidAutotuneState_e from pid_autotune.c. -/
inductive pidAutotuneState_e where
  | DEMAND_TOO_LOW
  | DEMAND_UNDERSHOOT
  | DEMAND_OVERSHOOT
deriving DecidableEq

open pidAutotuneState_e

/-- pidAutotuneData_t from pid_autotune.c: per-axis tuning state. -/
structure pidAutotuneData_t where
  state : pidAutotuneState_e
  stateEnterTime : ℕ
  pidSaturated : Bool
  gainP : ℚ
  gainI : ℚ
  gainD : ℚ
deriving DecidableEq

/-- Modelled from the spec: one entry of the live rate-controller pid bank
(`pidBank()->pid[axis]`, declared in flight/pid.h which is outside the
excerpt); the live controller gain read/write interface returns and stores
integer register values. -/
structure pidGains where
  P : ℤ
  I : ℤ
  D : ℤ
deriving DecidableEq

/-- The firmware state read and mutated by the autotune subsystem.
`tuneCurrent`, `tuneSaved` and `lastGainsUpdateTime` are the statics of
pid_autotune.c.  Modelled from the spec (their owners are outside the
excerpt): `pidBank` is the live controller gain configuration,
`flightModeAutotune` the AUTO_TUNE flight-mode flag, and
`scheduledGainsUpdates` counts the calls to `schedulePidGainsUpdate`. -/
structure AutotuneWorld where
  tuneCurrent : Axis → pidAutotuneData_t
  tuneSaved : Axis → pidAutotuneData_t
  lastGainsUpdateTime : ℕ
  pidBank : Axis → pidGains
  flightModeAutotune : Bool
  scheduledGainsUpdates : ℕ

def AUTOTUNE_SAVE_PERIOD : ℕ := 5000
def AUTOTUNE_FIXED_WING_OVERSHOOT_TIME : ℤ := 100
def AUTOTUNE_FIXED_WING_UNDERSHOOT_TIME : ℤ := 200
def AUTOTUNE_FIXED_WING_DECREASE_STEP : ℚ := 8
def AUTOTUNE_FIXED_WING_INCREASE_STEP : ℚ := 5
def AUTOTUNE_FIXED_WING_MIN_FF : ℚ := 10
def AUTOTUNE_FIXED_WING_MAX_FF : ℚ := 200

/-- Modelled from the spec: fixed-point pid scaling constants from
flight/pid.h (outside the excerpt), values of the target firmware. -/
def FP_PID_RATE_FF_MULTIPLIER : ℚ := 31

/-- Modelled from the spec: see FP_PID_RATE_FF_MULTIPLIER. -/
def FP_PID_RATE_I_MULTIPLIER : ℚ := 4

/-- Modelled from the spec: see FP_PID_RATE_FF_MULTIPLIER. -/
def FP_PID_LEVEL_P_MULTIPLIER : ℚ := 656 / 100

/-- 2^32, the modulus of timeMs_t (uint32_t). -/
def U32 : ℕ := 4294967296

/-- 2^31, the signed bound of timeDelta_t (int32_t). -/
def I32 : ℕ := 2147483648

/-- Unsigned 32-bit subtraction a - b (callers supply values < 2^32,
as millis() does). -/
def uSub32 (a b : ℕ) : ℕ := (a + U32 - b) % U32

/-- Reinterpret a uint32 value as int32 (two's complement). -/
def toInt32 (n : ℕ) : ℤ :=
  if n % U32 < I32 then ((n % U32 : ℕ) : ℤ) else ((n % U32 : ℕ) : ℤ) - (U32 : ℤ)

/-- The C idiom `(timeDelta_t)(now - then)` on timeMs_t values. -/
def timeDelta (now enter : ℕ) : ℤ := toInt32 (uSub32 now enter)

/-- constrainf from common/maths.h (outside the excerpt; standard clamp,
modelled from the spec's clamping description). -/
def constrainf (amt low high : ℚ) : ℚ :=
  if amt < low then low else if amt > high then high else amt

/-- Modelled from the spec: C lrintf, rounding a float to the nearest
integer. -/
def lrintf (x : ℚ) : ℤ := round x

/-- The collaborator configuration read by autotuneFixedWingUpdate:
`currentControlRateProfile->rates[axis]` (uint8), `pidProfile()->
max_angle_inclination[axis]` (decidegrees), `pidBank()->pid[PID_LEVEL].P`
and `pidProfile()->pidSumLimit`. -/
structure AutotuneConfig where
  rates : Axis → ℕ
  max_angle_inclination : Axis → ℕ
  pidLevelP : ℕ
  pidSumLimit : ℚ

/-- autotuneUpdateGains (pid_autotune.c lines 68-76): write the rounded
gains of every axis into the live pid bank and schedule a gains reload. -/
def autotuneUpdateGains (data : Axis → pidAutotuneData_t) (w : AutotuneWorld) :
    AutotuneWorld :=
  { w with
    pidBank := fun axis =>
      { P := lrintf (data axis).gainP
        I := lrintf (data axis).gainI
        D := lrintf (data axis).gainD }
    scheduledGainsUpdates := w.scheduledGainsUpdates + 1 }

/-- autotuneCheckUpdateGains (pid_autotune.c lines 78-90): the commit
scheduler; `now` is the millis() sample. -/
def autotuneCheckUpdateGains (now : ℕ) (w : AutotuneWorld) : AutotuneWorld :=
  if uSub32 now w.lastGainsUpdateTime < AUTOTUNE_SAVE_PERIOD then w
  else
    let w1 := { w with tuneSaved := w.tuneCurrent }
    let w2 := autotuneUpdateGains w1.tuneSaved w1
    { w2 with lastGainsUpdateTime := now }

/-- autotuneStart (pid_autotune.c lines 92-105); `now` is the millis()
sample of this tick. -/
def autotuneStart (now : ℕ) (w : AutotuneWorld) : AutotuneWorld :=
  let seeded : Axis → pidAutotuneData_t := fun axis =>
    { state := DEMAND_TOO_LOW
      stateEnterTime := now
      pidSaturated := false
      gainP := ((w.pidBank axis).P : ℚ)
      gainI := ((w.pidBank axis).I : ℚ)
      gainD := ((w.pidBank axis).D : ℚ) }
  { w with tuneCurrent := seeded, tuneSaved := seeded, lastGainsUpdateTime := now }

/-- autotuneUpdateState (pid_autotune.c lines 107-124).
`boxAutotuneActive` is IS_RC_MODE_ACTIVE(BOXAUTOTUNE), `armed` is
ARMING_FLAG(ARMED), and the AUTO_TUNE flight-mode bit lives in
`w.flightModeAutotune`. -/
def autotuneUpdateState (boxAutotuneActive armed : Bool) (now : ℕ)
    (w : AutotuneWorld) : AutotuneWorld :=
  if boxAutotuneActive && armed then
    if !w.flightModeAutotune then
      { autotuneStart now w with flightModeAutotune := true }
    else
      autotuneCheckUpdateGains now w
  else
    let w1 := if w.flightModeAutotune then autotuneUpdateGains w.tuneSaved w else w
    { w1 with flightModeAutotune := false }

/-- maxDesiredRate as computed by autotuneFixedWingUpdate (lines 139-147):
the configured axis rate (tens of deg/s times 10), reduced for pitch and
roll to the minimum with the ANGLE-mode rate ceiling
DECIDEGREES_TO_DEGREES(max_angle_inclination) * levelP / FP_PID_LEVEL_P_MULTIPLIER. -/
def maxDesiredRateOf (cfg : AutotuneConfig) (axis : Axis) : ℚ :=
  let base : ℚ := (cfg.rates axis : ℚ) * 10
  if axis = FD_PITCH ∨ axis = FD_ROLL then
    min base ((cfg.max_angle_inclination axis : ℚ) / 10 * (cfg.pidLevelP : ℚ) /
      FP_PID_LEVEL_P_MULTIPLIER)
  else base

/-- The demand classification of autotuneFixedWingUpdate (lines 154-163). -/
def classifyDemand (cfg : AutotuneConfig) (axis : Axis)
    (desiredRateDps reachedRateDps : ℚ) : pidAutotuneState_e :=
  if |desiredRateDps| < 0.75 * maxDesiredRateOf cfg axis then DEMAND_TOO_LOW
  else if |reachedRateDps| > |desiredRateDps| then DEMAND_OVERSHOOT
  else DEMAND_UNDERSHOOT

/-- The saturation latch of autotuneFixedWingUpdate (lines 149-152). -/
def markSaturation (cfg : AutotuneConfig) (pidOutput : ℚ)
    (d : pidAutotuneData_t) : pidAutotuneData_t :=
  if |pidOutput| ≥ cfg.pidSumLimit then { d with pidSaturated := true } else d

/-- The gainD adjustment switch of autotuneFixedWingUpdate (lines 169-190):
returns the updated per-axis data and the gainsUpdated flag. -/
def fwAdjustGainD (d : pidAutotuneData_t) (stateTimeMs : ℤ) :
    pidAutotuneData_t × Bool :=
  match d.state with
  | DEMAND_TOO_LOW => (d, false)
  | DEMAND_OVERSHOOT =>
    if AUTOTUNE_FIXED_WING_OVERSHOOT_TIME ≤ stateTimeMs then
      let g := d.gainD * (100 - AUTOTUNE_FIXED_WING_DECREASE_STEP) / 100
      ({ d with gainD := if g < AUTOTUNE_FIXED_WING_MIN_FF then AUTOTUNE_FIXED_WING_MIN_FF else g },
       true)
    else (d, false)
  | DEMAND_UNDERSHOOT =>
    if AUTOTUNE_FIXED_WING_UNDERSHOOT_TIME ≤ stateTimeMs ∧ d.pidSaturated = false then
      let g := d.gainD * (100 + AUTOTUNE_FIXED_WING_INCREASE_STEP) / 100
      ({ d with gainD := if g > AUTOTUNE_FIXED_WING_MAX_FF then AUTOTUNE_FIXED_WING_MAX_FF else g },
       true)
    else (d, false)

/-- The companion-gain derivation of autotuneFixedWingUpdate (lines
192-198): gainP is 10% of gainD and gainI the 1-second FF-equivalent,
constrained to [1, 50]. -/
def fwDeriveGains (d : pidAutotuneData_t) : pidAutotuneData_t :=
  { d with
    gainP := d.gainD * 0.1
    gainI := constrainf (d.gainD / FP_PID_RATE_FF_MULTIPLIER * 1 * FP_PID_RATE_I_MULTIPLIER) 1 50 }

/-- autotuneFixedWingUpdate (pid_autotune.c lines 135-207); `now` is the
millis() sample of this tick. -/
def autotuneFixedWingUpdate (cfg : AutotuneConfig) (axis : Axis) (now : ℕ)
    (desiredRateDps reachedRateDps pidOutput : ℚ) (w : AutotuneWorld) :
    AutotuneWorld :=
  let d1 := markSaturation cfg pidOutput (w.tuneCurrent axis)
  let newState := classifyDemand cfg axis desiredRateDps reachedRateDps
  if newState ≠ d1.state then
    let stateTimeMs := timeDelta now d1.stateEnterTime
    let p := fwAdjustGainD d1 stateTimeMs
    let d3 := if p.2 then fwDeriveGains p.1 else p.1
    let w1 := { w with tuneCurrent := Function.update w.tuneCurrent axis d3 }
    let w2 := if p.2 then autotuneUpdateGains w1.tuneCurrent w1 else w1
    let d4 := { d3 with state := newState, stateEnterTime := now, pidSaturated := false }
    { w2 with tuneCurrent := Function.update w2.tuneCurrent axis d4 }
  else
    { w with tuneCurrent := Function.update w.tuneCurrent axis d1 }

/-- The rounded pid-bank image of one axis's working gains, as written by
autotuneUpdateGains. -/
def roundedGainsOf (d : pidAutotuneData_t) : pidGains :=
  { P := lrintf d.gainP, I := lrintf d.gainI, D := lrintf d.gainD }

/-- The gain triple of a per-axis record. -/
def gainsOf (d : pidAutotuneData_t) : ℚ × ℚ × ℚ := (d.gainP, d.gainI, d.gainD)

/-- The adjusted-and-derived per-axis record a transition writes (the value
of d3 in autotuneFixedWingUpdate, before the regime bookkeeping). -/
def fwAdjusted (cfg : AutotuneConfig) (out : ℚ) (now : ℕ)
    (d0 : pidAutotuneData_t) : pidAutotuneData_t :=
  if (fwAdjustGainD (markSaturation cfg out d0) (timeDelta now d0.stateEnterTime)).2 then
    fwDeriveGains (fwAdjustGainD (markSaturation cfg out d0) (timeDelta now d0.stateEnterTime)).1
  else (fwAdjustGainD (markSaturation cfg out d0) (timeDelta now d0.stateEnterTime)).1

/-- The gainsUpdated flag a transition computes. -/
def fwFired (cfg : AutotuneConfig) (out : ℚ) (now : ℕ)
    (d0 : pidAutotuneData_t) : Bool :=
  (fwAdjustGainD (markSaturation cfg out d0) (timeDelta now d0.stateEnterTime)).2

/-- The regime bookkeeping a transition applies last: set the new regime,
stamp the entry time, clear the saturation latch. -/
def fwBookkeep (ns : pidAutotuneState_e) (now : ℕ)
    (d : pidAutotuneData_t) : pidAutotuneData_t :=
  { d with state := ns, stateEnterTime := now, pidSaturated := false }

/-! ### Sample configuration and worlds used by the concrete witnesses -/

/-- A concrete collaborator configuration: 200 deg/s configured rate on
every axis, 30 degrees maximum inclination, level P gain 20, pid sum
limit 500. -/
def sampleConfig : AutotuneConfig :=
  { rates := fun _ => 20
    max_angle_inclination := fun _ => 300
    pidLevelP := 20
    pidSumLimit := 500 }

/-- A concrete world with an active session. -/
def Wsample : AutotuneWorld :=
  { tuneCurrent := fun _ => ⟨DEMAND_TOO_LOW, 0, false, 11, 12, 13⟩
    tuneSaved := fun _ => ⟨DEMAND_TOO_LOW, 0, false, 2, 3, 40⟩
    lastGainsUpdateTime := 0
    pidBank := fun _ => ⟨40, 30, 60⟩
    flightModeAutotune := true
    scheduledGainsUpdates := 0 }

/-- A concrete world with no active session. -/
def WsampleOff : AutotuneWorld :=
  { Wsample with flightModeAutotune := false }

/-- A concrete world whose axes have dwelt in Overshoot since t = 0 with
gainD 50. -/
def W5 : AutotuneWorld :=
  { Wsample with tuneCurrent := fun _ => ⟨DEMAND_OVERSHOOT, 0, false, 5, 2, 50⟩ }

/-- A concrete world whose axes have dwelt in Undershoot since t = 0 with
gainD 190, unsaturated. -/
def W6 : AutotuneWorld :=
  { Wsample with tuneCurrent := fun _ => ⟨DEMAND_UNDERSHOOT, 0, false, 19, 25, 190⟩ }

/-! ### Sequences of per-axis calls (dwell damping) -/

/-- One invocation of the per-axis tuning law: its axis, millis() sample,
commanded and achieved rates, and controller output. -/
structure FwCall where
  axis : Axis
  now : ℕ
  desiredRateDps : ℚ
  reachedRateDps : ℚ
  pidOutput : ℚ

/-- Apply one per-axis call. -/
def applyFwCall (cfg : AutotuneConfig) (w : AutotuneWorld) (c : FwCall) :
    AutotuneWorld :=
  autotuneFixedWingUpdate cfg c.axis c.now c.desiredRateDps c.reachedRateDps
    c.pidOutput w

/-- Run a list of per-axis calls in order. -/
def runFwCalls (cfg : AutotuneConfig) : AutotuneWorld → List FwCall → AutotuneWorld
  | w, [] => w
  | w, c :: cs => runFwCalls cfg (applyFwCall cfg w c) cs

/-- The call observes either no regime transition, or a transition whose
dwell is strictly below the exited regime's floor (any dwell when exiting
TooLow, 100 ms for Overshoot, 200 ms for Undershoot). -/
def belowDwellFloorB (cfg : AutotuneConfig) (w : AutotuneWorld) (c : FwCall) :
    Bool :=
  if classifyDemand cfg c.axis c.desiredRateDps c.reachedRateDps =
      (w.tuneCurrent c.axis).state then
    true
  else
    match (w.tuneCurrent c.axis).state with
    | DEMAND_TOO_LOW => true
    | DEMAND_UNDERSHOOT =>
        decide (timeDelta c.now (w.tuneCurrent c.axis).stateEnterTime <
          AUTOTUNE_FIXED_WING_UNDERSHOOT_TIME)
    | DEMAND_OVERSHOOT =>
        decide (timeDelta c.now (w.tuneCurrent c.axis).stateEnterTime <
          AUTOTUNE_FIXED_WING_OVERSHOOT_TIME)

/-- Every call of the sequence, run from this state, stays below the dwell
floor of the regime it exits. -/
def allBelowDwellFloorB (cfg : AutotuneConfig) :
    AutotuneWorld → List FwCall → Bool
  | _, [] => true
  | w, c :: cs =>
      belowDwellFloorB cfg w c && allBelowDwellFloorB cfg (applyFwCall cfg w c) cs

/-! ### Gain ranges -/

/-- The configured valid ranges of the tuned gains: gainD in [10, 200],
gainI in [1, 50]. -/
def dataGainsInRange (d : pidAutotuneData_t) : Prop :=
  10 ≤ d.gainD ∧ d.gainD ≤ 200 ∧ 1 ≤ d.gainI ∧ d.gainI ≤ 50

/-- Both snapshots hold in-range gains on every axis. -/
def tuneGainsInRange (w : AutotuneWorld) : Prop :=
  ∀ ax, dataGainsInRange (w.tuneCurrent ax) ∧ dataGainsInRange (w.tuneSaved ax)

/-- The live bank holds in-range gains on every axis. -/
def bankGainsInRange (w : AutotuneWorld) : Prop :=
  ∀ ax, (10 : ℤ) ≤ (w.pidBank ax).D ∧ (w.pidBank ax).D ≤ 200 ∧
    (1 : ℤ) ≤ (w.pidBank ax).I ∧ (w.pidBank ax).I ≤ 50

/-- A world with no active session whose live bank holds an out-of-range
feed-forward gain (D = 5 < 10) — e.g. a pilot profile with a small yaw D. -/
def W9 : AutotuneWorld :=
  { WsampleOff with pidBank := fun _ => ⟨40, 30, 5⟩ }

/-! ### Arithmetic and structural helper lemmas -/

theorem uSub32_eq (a b : ℕ) (h1 : b ≤ a) (h2 : a - b < U32) :
    uSub32 a b = a - b := by
  unfold uSub32
  have h3 : a + U32 - b = (a - b) + U32 := by omega
  rw [h3, Nat.add_mod_right, Nat.mod_eq_of_lt h2]

theorem timeDelta_eq (a b : ℕ) (h1 : b ≤ a) (h2 : a - b < I32) :
    timeDelta a b = (a : ℤ) - (b : ℤ) := by
  have hIU : I32 < U32 := by norm_num [I32, U32]
  have hU : a - b < U32 := lt_trans h2 hIU
  unfold timeDelta toInt32
  rw [uSub32_eq a b h1 hU, Nat.mod_eq_of_lt hU, if_pos h2]
  omega

theorem clampFloor_eq_max (g lo : ℚ) : (if g < lo then lo else g) = max g lo := by
  rcases lt_or_le g lo with h | h
  · rw [if_pos h, max_eq_right h.le]
  · rw [if_neg (not_lt.2 h), max_eq_left h]

theorem clampCeil_eq_min (g hi : ℚ) : (if g > hi then hi else g) = min g hi := by
  rcases lt_or_le hi g with h | h
  · rw [if_pos h, min_eq_right h.le]
  · rw [if_neg (not_lt.2 h), min_eq_left h]

theorem constrainf_mem (amt low high : ℚ) (h : low ≤ high) :
    low ≤ constrainf amt low high ∧ constrainf amt low high ≤ high := by
  unfold constrainf
  split_ifs with h1 h2
  · exact ⟨le_refl _, h⟩
  · exact ⟨h, le_refl _⟩
  · exact ⟨le_of_not_lt h1, le_of_not_lt h2⟩

theorem round_int_mem {a b : ℤ} {q : ℚ} (h1 : (a : ℚ) ≤ q) (h2 : q ≤ (b : ℚ)) :
    a ≤ round q ∧ round q ≤ b := by
  rw [round_eq]
  constructor
  · rw [Int.le_floor]
    linarith
  · have h3 : (q + 1 / 2 : ℚ) ≤ (b : ℚ) + 1 / 2 := by linarith
    have h4 := Int.floor_le_floor h3
    rwa [Int.floor_int_add, show ⌊(1 / 2 : ℚ)⌋ = 0 by norm_num, add_zero] at h4

@[simp] theorem markSaturation_state (cfg : AutotuneConfig) (o : ℚ)
    (d : pidAutotuneData_t) : (markSaturation cfg o d).state = d.state := by
  unfold markSaturation; split <;> rfl

@[simp] theorem markSaturation_stateEnterTime (cfg : AutotuneConfig) (o : ℚ)
    (d : pidAutotuneData_t) :
    (markSaturation cfg o d).stateEnterTime = d.stateEnterTime := by
  unfold markSaturation; split <;> rfl

@[simp] theorem markSaturation_gainP (cfg : AutotuneConfig) (o : ℚ)
    (d : pidAutotuneData_t) : (markSaturation cfg o d).gainP = d.gainP := by
  unfold markSaturation; split <;> rfl

@[simp] theorem markSaturation_gainI (cfg : AutotuneConfig) (o : ℚ)
    (d : pidAutotuneData_t) : (markSaturation cfg o d).gainI = d.gainI := by
  unfold markSaturation; split <;> rfl

@[simp] theorem markSaturation_gainD (cfg : AutotuneConfig) (o : ℚ)
    (d : pidAutotuneData_t) : (markSaturation cfg o d).gainD = d.gainD := by
  unfold markSaturation; split <;> rfl

@[simp] theorem fwAdjustGainD_fst_state (d : pidAutotuneData_t) (t : ℤ) :
    ((fwAdjustGainD d t).1).state = d.state := by
  cases hs : d.state <;> simp only [fwAdjustGainD, hs] <;> split_ifs <;>
    first | rfl | exact hs

@[simp] theorem fwAdjustGainD_fst_stateEnterTime (d : pidAutotuneData_t) (t : ℤ) :
    ((fwAdjustGainD d t).1).stateEnterTime = d.stateEnterTime := by
  cases hs : d.state <;> simp only [fwAdjustGainD, hs] <;> split_ifs <;> rfl

@[simp] theorem fwAdjustGainD_fst_pidSaturated (d : pidAutotuneData_t) (t : ℤ) :
    ((fwAdjustGainD d t).1).pidSaturated = d.pidSaturated := by
  cases hs : d.state <;> simp only [fwAdjustGainD, hs] <;> split_ifs <;> rfl

@[simp] theorem fwAdjustGainD_fst_gainP (d : pidAutotuneData_t) (t : ℤ) :
    ((fwAdjustGainD d t).1).gainP = d.gainP := by
  cases hs : d.state <;> simp only [fwAdjustGainD, hs] <;> split_ifs <;> rfl

@[simp] theorem fwAdjustGainD_fst_gainI (d : pidAutotuneData_t) (t : ℤ) :
    ((fwAdjustGainD d t).1).gainI = d.gainI := by
  cases hs : d.state <;> simp only [fwAdjustGainD, hs] <;> split_ifs <;> rfl

theorem fwAdjustGainD_of_not_updated (d : pidAutotuneData_t) (t : ℤ)
    (h : (fwAdjustGainD d t).2 = false) : (fwAdjustGainD d t).1 = d := by
  cases hs : d.state <;> simp only [fwAdjustGainD, hs] at h ⊢ <;> split_ifs at h ⊢ <;> rfl

theorem fwAdjustGainD_tooLow (d : pidAutotuneData_t) (t : ℤ)
    (h : d.state = DEMAND_TOO_LOW) : fwAdjustGainD d t = (d, false) := by
  simp only [fwAdjustGainD, h]

theorem fwAdjustGainD_overshoot (d : pidAutotuneData_t) (t : ℤ)
    (h : d.state = DEMAND_OVERSHOOT) :
    fwAdjustGainD d t =
      if AUTOTUNE_FIXED_WING_OVERSHOOT_TIME ≤ t then
        ({ d with gainD := max (d.gainD * 0.92) 10 }, true)
      else (d, false) := by
  have h92 : d.gainD * (100 - AUTOTUNE_FIXED_WING_DECREASE_STEP) / 100 =
      d.gainD * 0.92 := by
    unfold AUTOTUNE_FIXED_WING_DECREASE_STEP
    ring_nf
  simp only [fwAdjustGainD, h]
  rw [h92, show AUTOTUNE_FIXED_WING_MIN_FF = (10 : ℚ) from rfl, clampFloor_eq_max]

theorem fwAdjustGainD_undershoot (d : pidAutotuneData_t) (t : ℤ)
    (h : d.state = DEMAND_UNDERSHOOT) :
    fwAdjustGainD d t =
      if AUTOTUNE_FIXED_WING_UNDERSHOOT_TIME ≤ t ∧ d.pidSaturated = false then
        ({ d with gainD := min (d.gainD * 1.05) 200 }, true)
      else (d, false) := by
  have h105 : d.gainD * (100 + AUTOTUNE_FIXED_WING_INCREASE_STEP) / 100 =
      d.gainD * 1.05 := by
    unfold AUTOTUNE_FIXED_WING_INCREASE_STEP
    ring_nf
  simp only [fwAdjustGainD, h]
  rw [h105, show AUTOTUNE_FIXED_WING_MAX_FF = (200 : ℚ) from rfl, clampCeil_eq_min]

@[simp] theorem fwDeriveGains_gainD (d : pidAutotuneData_t) :
    (fwDeriveGains d).gainD = d.gainD := rfl

@[simp] theorem fwDeriveGains_state (d : pidAutotuneData_t) :
    (fwDeriveGains d).state = d.state := rfl

@[simp] theorem fwDeriveGains_stateEnterTime (d : pidAutotuneData_t) :
    (fwDeriveGains d).stateEnterTime = d.stateEnterTime := rfl

@[simp] theorem fwDeriveGains_pidSaturated (d : pidAutotuneData_t) :
    (fwDeriveGains d).pidSaturated = d.pidSaturated := rfl

@[simp] theorem fwDeriveGains_gainP (d : pidAutotuneData_t) :
    (fwDeriveGains d).gainP = d.gainD * 0.1 := rfl

@[simp] theorem fwDeriveGains_gainI (d : pidAutotuneData_t) :
    (fwDeriveGains d).gainI =
      constrainf (d.gainD / FP_PID_RATE_FF_MULTIPLIER * 1 * FP_PID_RATE_I_MULTIPLIER) 1 50 := rfl

/-! ### Shape lemmas for autotuneFixedWingUpdate -/

theorem fwUpdate_no_transition (cfg : AutotuneConfig) (axis : Axis) (now : ℕ)
    (d r out : ℚ) (w : AutotuneWorld)
    (h : classifyDemand cfg axis d r = (w.tuneCurrent axis).state) :
    autotuneFixedWingUpdate cfg axis now d r out w =
      { w with tuneCurrent := Function.update w.tuneCurrent axis (markSaturation cfg out (w.tuneCurrent axis)) } := by
  simp only [autotuneFixedWingUpdate, markSaturation_state]
  rw [if_neg (not_ne_iff.mpr h)]

theorem fwUpdate_transition (cfg : AutotuneConfig) (axis : Axis) (now : ℕ)
    (d r out : ℚ) (w : AutotuneWorld)
    (h : classifyDemand cfg axis d r ≠ (w.tuneCurrent axis).state) :
    autotuneFixedWingUpdate cfg axis now d r out w =
      { w with
        tuneCurrent := Function.update w.tuneCurrent axis
          (fwBookkeep (classifyDemand cfg axis d r) now
            (fwAdjusted cfg out now (w.tuneCurrent axis)))
        pidBank :=
          if fwFired cfg out now (w.tuneCurrent axis) then
            fun ax => roundedGainsOf
              (Function.update w.tuneCurrent axis
                (fwAdjusted cfg out now (w.tuneCurrent axis)) ax)
          else w.pidBank
        scheduledGainsUpdates :=
          if fwFired cfg out now (w.tuneCurrent axis) then
            w.scheduledGainsUpdates + 1
          else w.scheduledGainsUpdates } := by
  have hne : classifyDemand cfg axis d r ≠
      (markSaturation cfg out (w.tuneCurrent axis)).state := by
    rwa [markSaturation_state]
  simp only [autotuneFixedWingUpdate]
  rw [if_pos hne]
  unfold fwAdjusted fwFired fwBookkeep
  simp only [markSaturation_stateEnterTime]
  cases hb : (fwAdjustGainD (markSaturation cfg out (w.tuneCurrent axis))
      (timeDelta now (w.tuneCurrent axis).stateEnterTime)).2 <;>
    simp only [hb, if_true, if_false, Bool.false_eq_true, ite_false, ite_true,
      autotuneUpdateGains, roundedGainsOf, Function.update_idem]

/-! ### Claim theorems -/

theorem fwAdjusted_of_fired (cfg : AutotuneConfig) (out : ℚ) (now : ℕ)
    (d0 : pidAutotuneData_t) (h : fwFired cfg out now d0 = true) :
    fwAdjusted cfg out now d0 =
      fwDeriveGains (fwAdjustGainD (markSaturation cfg out d0)
        (timeDelta now d0.stateEnterTime)).1 := by
  unfold fwFired at h
  unfold fwAdjusted
  rw [h]
  simp

theorem fwAdjusted_of_not_fired (cfg : AutotuneConfig) (out : ℚ) (now : ℕ)
    (d0 : pidAutotuneData_t) (h : fwFired cfg out now d0 = false) :
    fwAdjusted cfg out now d0 = markSaturation cfg out d0 := by
  unfold fwFired at h
  unfold fwAdjusted
  rw [h]
  simp only [Bool.false_eq_true, if_false]
  exact fwAdjustGainD_of_not_updated _ _ h

theorem belowDwellFloor_not_fired (cfg : AutotuneConfig) (w : AutotuneWorld)
    (c : FwCall)
    (hne : classifyDemand cfg c.axis c.desiredRateDps c.reachedRateDps ≠
      (w.tuneCurrent c.axis).state)
    (h : belowDwellFloorB cfg w c = true) :
    fwFired cfg c.pidOutput c.now (w.tuneCurrent c.axis) = false := by
  unfold belowDwellFloorB at h
  rw [if_neg hne] at h
  unfold fwFired
  cases hs : (w.tuneCurrent c.axis).state
  · rw [fwAdjustGainD_tooLow _ _ (by rw [markSaturation_state]; exact hs)]
  · simp only [hs] at h
    have hlt : timeDelta c.now (w.tuneCurrent c.axis).stateEnterTime <
        AUTOTUNE_FIXED_WING_UNDERSHOOT_TIME := of_decide_eq_true h
    rw [fwAdjustGainD_undershoot _ _ (by rw [markSaturation_state]; exact hs),
      if_neg (fun hcon => absurd hcon.1 (not_le.2 hlt))]
  · simp only [hs] at h
    have hlt : timeDelta c.now (w.tuneCurrent c.axis).stateEnterTime <
        AUTOTUNE_FIXED_WING_OVERSHOOT_TIME := of_decide_eq_true h
    rw [fwAdjustGainD_overshoot _ _ (by rw [markSaturation_state]; exact hs),
      if_neg (not_le.2 hlt)]

theorem fwStep_gains_preserved (cfg : AutotuneConfig) (w : AutotuneWorld)
    (c : FwCall) (h : belowDwellFloorB cfg w c = true) :
    ∀ ax, gainsOf ((applyFwCall cfg w c).tuneCurrent ax) =
      gainsOf (w.tuneCurrent ax) := by
  intro ax
  unfold applyFwCall
  by_cases hne : classifyDemand cfg c.axis c.desiredRateDps c.reachedRateDps =
      (w.tuneCurrent c.axis).state
  · rw [fwUpdate_no_transition _ _ _ _ _ _ _ hne]
    by_cases hax : ax = c.axis
    · subst hax
      simp [Function.update_same, gainsOf]
    · simp [Function.update_noteq hax]
  · have hf := belowDwellFloor_not_fired cfg w c hne h
    rw [fwUpdate_transition _ _ _ _ _ _ _ hne]
    by_cases hax : ax = c.axis
    · subst hax
      simp [Function.update_same, fwBookkeep,
        fwAdjusted_of_not_fired _ _ _ _ hf, gainsOf]
    · simp [Function.update_noteq hax]

theorem fwStep_bookkeeping (cfg : AutotuneConfig) (v : AutotuneWorld)
    (c : FwCall)
    (hne : classifyDemand cfg c.axis c.desiredRateDps c.reachedRateDps ≠
      (v.tuneCurrent c.axis).state) :
    ((applyFwCall cfg v c).tuneCurrent c.axis).state =
      classifyDemand cfg c.axis c.desiredRateDps c.reachedRateDps ∧
    ((applyFwCall cfg v c).tuneCurrent c.axis).stateEnterTime = c.now ∧
    ((applyFwCall cfg v c).tuneCurrent c.axis).pidSaturated = false := by
  unfold applyFwCall
  rw [fwUpdate_transition _ _ _ _ _ _ _ hne]
  refine ⟨?_, ?_, ?_⟩ <;> simp [Function.update_same, fwBookkeep]

theorem runFwCalls_gains_preserved (cfg : AutotuneConfig) (cs : List FwCall) :
    ∀ w : AutotuneWorld, allBelowDwellFloorB cfg w cs = true →
      ∀ ax, gainsOf ((runFwCalls cfg w cs).tuneCurrent ax) =
        gainsOf (w.tuneCurrent ax) := by
  induction cs with
  | nil => intro w _ ax; rfl
  | cons c cs ih =>
    intro w h ax
    have hsplit : belowDwellFloorB cfg w c = true ∧
        allBelowDwellFloorB cfg (applyFwCall cfg w c) cs = true := by
      have h2 : (belowDwellFloorB cfg w c &&
          allBelowDwellFloorB cfg (applyFwCall cfg w c) cs) = true := h
      simpa [Bool.and_eq_true] using h2
    have hrw : runFwCalls cfg w (c :: cs) =
        runFwCalls cfg (applyFwCall cfg w c) cs := rfl
    rw [hrw, ih (applyFwCall cfg w c) hsplit.2 ax,
      fwStep_gains_preserved cfg w c hsplit.1 ax]

theorem dataGains_rounded_range (d : pidAutotuneData_t)
    (h : dataGainsInRange d) :
    (10 : ℤ) ≤ (roundedGainsOf d).D ∧ (roundedGainsOf d).D ≤ 200 ∧
    (1 : ℤ) ≤ (roundedGainsOf d).I ∧ (roundedGainsOf d).I ≤ 50 := by
  obtain ⟨h1, h2, h3, h4⟩ := h
  have hD := round_int_mem (a := 10) (b := 200) (q := d.gainD)
    (by exact_mod_cast h1) (by exact_mod_cast h2)
  have hI := round_int_mem (a := 1) (b := 50) (q := d.gainI)
    (by exact_mod_cast h3) (by exact_mod_cast h4)
  exact ⟨hD.1, hD.2, hI.1, hI.2⟩

theorem markSaturation_range (cfg : AutotuneConfig) (o : ℚ)
    (d : pidAutotuneData_t) (h : dataGainsInRange d) :
    dataGainsInRange (markSaturation cfg o d) := by
  unfold dataGainsInRange at h ⊢
  simpa using h

theorem fwAdjustGainD_range (d : pidAutotuneData_t) (t : ℤ)
    (h : dataGainsInRange d) : dataGainsInRange (fwAdjustGainD d t).1 := by
  obtain ⟨h1, h2, h3, h4⟩ := h
  cases hs : d.state
  · rw [fwAdjustGainD_tooLow _ _ hs]
    exact ⟨h1, h2, h3, h4⟩
  · rw [fwAdjustGainD_undershoot _ _ hs]
    split_ifs with hcond
    · refine ⟨le_min (by nlinarith) (by norm_num), min_le_right _ _, h3, h4⟩
    · exact ⟨h1, h2, h3, h4⟩
  · rw [fwAdjustGainD_overshoot _ _ hs]
    split_ifs with hcond
    · refine ⟨le_max_right _ _, max_le (by nlinarith) (by norm_num), h3, h4⟩
    · exact ⟨h1, h2, h3, h4⟩

theorem fwDeriveGains_range (d : pidAutotuneData_t)
    (h : dataGainsInRange d) : dataGainsInRange (fwDeriveGains d) := by
  obtain ⟨h1, h2, _, _⟩ := h
  unfold dataGainsInRange
  simp only [fwDeriveGains_gainD, fwDeriveGains_gainI]
  exact ⟨h1, h2, (constrainf_mem _ 1 50 (by norm_num)).1,
    (constrainf_mem _ 1 50 (by norm_num)).2⟩

theorem fwAdjusted_range (cfg : AutotuneConfig) (out : ℚ) (now : ℕ)
    (d0 : pidAutotuneData_t) (h : dataGainsInRange d0) :
    dataGainsInRange (fwAdjusted cfg out now d0) := by
  unfold fwAdjusted
  split_ifs
  · exact fwDeriveGains_range _ (fwAdjustGainD_range _ _
      (markSaturation_range _ _ _ h))
  · exact fwAdjustGainD_range _ _ (markSaturation_range _ _ _ h)

theorem fwBookkeep_range (ns : pidAutotuneState_e) (now : ℕ)
    (d : pidAutotuneData_t) (h : dataGainsInRange d) :
    dataGainsInRange (fwBookkeep ns now d) := by
  unfold dataGainsInRange at h ⊢
  simpa [fwBookkeep] using h

theorem fwUpdate_range (cfg : AutotuneConfig) (axis : Axis) (now : ℕ)
    (d r out : ℚ) (w : AutotuneWorld) (hc : tuneGainsInRange w)
    (hb : bankGainsInRange w) :
    tuneGainsInRange (autotuneFixedWingUpdate cfg axis now d r out w) ∧
    bankGainsInRange (autotuneFixedWingUpdate cfg axis now d r out w) := by
  by_cases hne : classifyDemand cfg axis d r = (w.tuneCurrent axis).state
  · rw [fwUpdate_no_transition _ _ _ _ _ _ _ hne]
    refine ⟨fun ax => ?_, hb⟩
    dsimp only
    by_cases hax : ax = axis
    · subst hax
      refine ⟨?_, (hc ax).2⟩
      rw [Function.update_same]
      exact markSaturation_range _ _ _ (hc ax).1
    · rw [Function.update_noteq hax]
      exact hc ax
  · rw [fwUpdate_transition _ _ _ _ _ _ _ hne]
    have hadj : dataGainsInRange (fwAdjusted cfg out now (w.tuneCurrent axis)) :=
      fwAdjusted_range _ _ _ _ (hc axis).1
    constructor
    · intro ax
      dsimp only
      by_cases hax : ax = axis
      · subst hax
        refine ⟨?_, (hc ax).2⟩
        rw [Function.update_same]
        exact fwBookkeep_range _ _ _ hadj
      · rw [Function.update_noteq hax]
        exact hc ax
    · intro ax
      dsimp only
      by_cases hf : fwFired cfg out now (w.tuneCurrent axis) = true
      · simp only [if_pos hf]
        by_cases hax : ax = axis
        · subst hax
          rw [Function.update_same]
          exact dataGains_rounded_range _ hadj
        · rw [Function.update_noteq hax]
          exact dataGains_rounded_range _ (hc ax).1
      · simp only [if_neg hf]
        exact hb ax

theorem checkUpdate_range (now : ℕ) (w : AutotuneWorld)
    (hc : tuneGainsInRange w) (hb : bankGainsInRange w) :
    tuneGainsInRange (autotuneCheckUpdateGains now w) ∧
    bankGainsInRange (autotuneCheckUpdateGains now w) := by
  unfold autotuneCheckUpdateGains
  split_ifs with h
  · exact ⟨hc, hb⟩
  · exact ⟨fun ax => ⟨(hc ax).1, (hc ax).1⟩,
      fun ax => dataGains_rounded_range _ (hc ax).1⟩

theorem updateState_range (box armed : Bool) (now : ℕ) (w : AutotuneWorld)
    (hc : tuneGainsInRange w) (hb : bankGainsInRange w) :
    tuneGainsInRange (autotuneUpdateState box armed now w) ∧
    bankGainsInRange (autotuneUpdateState box armed now w) := by
  unfold autotuneUpdateState
  by_cases h1 : (box && armed) = true
  · rw [if_pos h1]
    by_cases h2 : w.flightModeAutotune = true
    · rw [if_neg (by simp [h2])]
      exact checkUpdate_range now w hc hb
    · rw [if_pos (by simp [Bool.not_eq_true] at h2 ⊢; exact h2)]
      constructor
      · intro ax
        have hbax := hb ax
        have hseed : dataGainsInRange ((autotuneStart now w).tuneCurrent ax) := by
          obtain ⟨hb1, hb2, hb3, hb4⟩ := hbax
          unfold autotuneStart dataGainsInRange
          dsimp only
          exact ⟨by exact_mod_cast hb1, by exact_mod_cast hb2,
            by exact_mod_cast hb3, by exact_mod_cast hb4⟩
        exact ⟨hseed, hseed⟩
      · intro ax
        exact hb ax
  · rw [if_neg h1]
    by_cases h2 : w.flightModeAutotune = true
    · rw [if_pos h2]
      exact ⟨fun ax => hc ax, fun ax => dataGains_rounded_range _ (hc ax).2⟩
    · rw [if_neg h2]
      exact ⟨hc, hb⟩

/-- Claim C1: on any tick where the session-update entry point observes
autotune not requested or disarmed while a session is active, it writes the
saved snapshot's gains for all axes into the live controller and clears the
flight-mode flag in that same call (leaving the snapshots themselves
untouched), so the live gains after an abort are exactly the last
checkpoint. -/
theorem autotune_abort_restores_saved (box armed : Bool) (now : ℕ)
    (w : AutotuneWorld) (hcond : (box && armed) = false)
    (hactive : w.flightModeAutotune = true) :
    (∀ axis, (autotuneUpdateState box armed now w).pidBank axis =
      roundedGainsOf (w.tuneSaved axis)) ∧
    (autotuneUpdateState box armed now w).flightModeAutotune = false ∧
    (autotuneUpdateState box armed now w).tuneSaved = w.tuneSaved ∧
    (autotuneUpdateState box armed now w).tuneCurrent = w.tuneCurrent := by
  unfold autotuneUpdateState
  rw [hcond]
  simp [hactive, autotuneUpdateGains, roundedGainsOf]

/-- Witness for C1 at a concrete input. -/
theorem autotune_abort_restores_saved_witness :
    ((false && true) = false ∧ Wsample.flightModeAutotune = true) ∧
    ((∀ axis, (autotuneUpdateState false true 5 Wsample).pidBank axis =
        roundedGainsOf (Wsample.tuneSaved axis)) ∧
      (autotuneUpdateState false true 5 Wsample).flightModeAutotune = false ∧
      (autotuneUpdateState false true 5 Wsample).tuneSaved = Wsample.tuneSaved ∧
      (autotuneUpdateState false true 5 Wsample).tuneCurrent = Wsample.tuneCurrent) :=
  ⟨⟨rfl, rfl⟩, autotune_abort_restores_saved false true 5 Wsample rfl rfl⟩

/-- Claim C2: the commit scheduler is a no-op when fewer than 5000 ms have
elapsed since the last commit, and otherwise copies current over saved for
all axes, applies the (new) saved gains to the live controller, and stamps
the commit time, so it fires at most once per 5000 ms. -/
theorem autotune_commit_rate_limited (now : ℕ) (w : AutotuneWorld)
    (h1 : w.lastGainsUpdateTime ≤ now)
    (h2 : now - w.lastGainsUpdateTime < U32) :
    (now - w.lastGainsUpdateTime < AUTOTUNE_SAVE_PERIOD →
      autotuneCheckUpdateGains now w = w) ∧
    (AUTOTUNE_SAVE_PERIOD ≤ now - w.lastGainsUpdateTime →
      (autotuneCheckUpdateGains now w).tuneSaved = w.tuneCurrent ∧
      (∀ axis, (autotuneCheckUpdateGains now w).pidBank axis =
        roundedGainsOf (w.tuneCurrent axis)) ∧
      (autotuneCheckUpdateGains now w).lastGainsUpdateTime = now ∧
      (autotuneCheckUpdateGains now w).tuneCurrent = w.tuneCurrent ∧
      (autotuneCheckUpdateGains now w).scheduledGainsUpdates =
        w.scheduledGainsUpdates + 1) := by
  have hu := uSub32_eq now w.lastGainsUpdateTime h1 h2
  constructor
  · intro h
    unfold autotuneCheckUpdateGains
    rw [hu, if_pos h]
  · intro h
    unfold autotuneCheckUpdateGains
    rw [hu, if_neg (not_lt.2 h)]
    simp [autotuneUpdateGains, roundedGainsOf]

/-- Witness for C2 at a concrete input (both the quiet and the firing
period). -/
theorem autotune_commit_rate_limited_witness :
    (Wsample.lastGainsUpdateTime ≤ 6000 ∧ 6000 - Wsample.lastGainsUpdateTime < U32) ∧
    ((6000 - Wsample.lastGainsUpdateTime < AUTOTUNE_SAVE_PERIOD →
      autotuneCheckUpdateGains 6000 Wsample = Wsample) ∧
    (AUTOTUNE_SAVE_PERIOD ≤ 6000 - Wsample.lastGainsUpdateTime →
      (autotuneCheckUpdateGains 6000 Wsample).tuneSaved = Wsample.tuneCurrent ∧
      (∀ axis, (autotuneCheckUpdateGains 6000 Wsample).pidBank axis =
        roundedGainsOf (Wsample.tuneCurrent axis)) ∧
      (autotuneCheckUpdateGains 6000 Wsample).lastGainsUpdateTime = 6000 ∧
      (autotuneCheckUpdateGains 6000 Wsample).tuneCurrent = Wsample.tuneCurrent ∧
      (autotuneCheckUpdateGains 6000 Wsample).scheduledGainsUpdates =
        Wsample.scheduledGainsUpdates + 1)) :=
  ⟨⟨by norm_num [Wsample], by norm_num [Wsample, U32]⟩,
    autotune_commit_rate_limited 6000 Wsample (by norm_num [Wsample])
      (by norm_num [Wsample, U32])⟩

/-- Claim C3: when the session-update entry point observes autotune
requested, armed and no active session, it seeds both current and saved
snapshots of every axis from the live controller's gains, resets each axis
to TooLow with saturated cleared and the regime-entry time set to now,
marks the session active and stamps the commit time. -/
theorem autotune_session_start_seeds (box armed : Bool) (now : ℕ)
    (w : AutotuneWorld) (hcond : (box && armed) = true)
    (hinactive : w.flightModeAutotune = false) :
    (∀ axis, (autotuneUpdateState box armed now w).tuneCurrent axis =
        { state := DEMAND_TOO_LOW, stateEnterTime := now, pidSaturated := false,
          gainP := ((w.pidBank axis).P : ℚ), gainI := ((w.pidBank axis).I : ℚ),
          gainD := ((w.pidBank axis).D : ℚ) } ∧
      (autotuneUpdateState box armed now w).tuneSaved axis =
        (autotuneUpdateState box armed now w).tuneCurrent axis) ∧
    (autotuneUpdateState box armed now w).flightModeAutotune = true ∧
    (autotuneUpdateState box armed now w).lastGainsUpdateTime = now := by
  unfold autotuneUpdateState
  rw [hcond]
  simp [hinactive, autotuneStart]

/-- Witness for C3 at a concrete input. -/
theorem autotune_session_start_seeds_witness :
    ((true && true) = true ∧ WsampleOff.flightModeAutotune = false) ∧
    ((∀ axis, (autotuneUpdateState true true 7 WsampleOff).tuneCurrent axis =
        { state := DEMAND_TOO_LOW, stateEnterTime := 7, pidSaturated := false,
          gainP := ((WsampleOff.pidBank axis).P : ℚ),
          gainI := ((WsampleOff.pidBank axis).I : ℚ),
          gainD := ((WsampleOff.pidBank axis).D : ℚ) } ∧
      (autotuneUpdateState true true 7 WsampleOff).tuneSaved axis =
        (autotuneUpdateState true true 7 WsampleOff).tuneCurrent axis) ∧
    (autotuneUpdateState true true 7 WsampleOff).flightModeAutotune = true ∧
    (autotuneUpdateState true true 7 WsampleOff).lastGainsUpdateTime = 7) :=
  ⟨⟨rfl, rfl⟩, autotune_session_start_seeds true true 7 WsampleOff rfl rfl⟩

/-- Claim C4: every per-axis update classifies the tick as TooLow when the
demanded rate magnitude is below 75% of the (angle-mode-reduced for pitch
and roll) maximum desired rate, else Overshoot when the achieved rate
magnitude strictly exceeds the demanded one, else Undershoot — and stores
that classification as the axis's regime. -/
theorem autotune_classification_law (cfg : AutotuneConfig) (axis : Axis)
    (now : ℕ) (d r out : ℚ) (w : AutotuneWorld) :
    ((autotuneFixedWingUpdate cfg axis now d r out w).tuneCurrent axis).state =
      (if |d| < 0.75 * maxDesiredRateOf cfg axis then DEMAND_TOO_LOW
       else if |r| > |d| then DEMAND_OVERSHOOT
       else DEMAND_UNDERSHOOT) := by
  have hrhs : (if |d| < 0.75 * maxDesiredRateOf cfg axis then DEMAND_TOO_LOW
       else if |r| > |d| then DEMAND_OVERSHOOT
       else DEMAND_UNDERSHOOT) = classifyDemand cfg axis d r := rfl
  rw [hrhs]
  by_cases h : classifyDemand cfg axis d r = (w.tuneCurrent axis).state
  · rw [fwUpdate_no_transition cfg axis now d r out w h]
    simp [Function.update_same, h]
  · rw [fwUpdate_transition cfg axis now d r out w h]
    simp [Function.update_same, fwBookkeep]

/-- Claim C5: on a per-axis update that exits the Overshoot regime (the
stored regime is Overshoot and the new classification differs), gainD
becomes the old gainD times 0.92 clamped from below to 10 when the dwell
reached 100 ms, and is unchanged when the dwell was shorter. -/
theorem autotune_overshoot_exit (cfg : AutotuneConfig) (axis : Axis)
    (now : ℕ) (d r out : ℚ) (w : AutotuneWorld)
    (hstate : (w.tuneCurrent axis).state = DEMAND_OVERSHOOT)
    (hdiff : classifyDemand cfg axis d r ≠ DEMAND_OVERSHOOT)
    (ht1 : (w.tuneCurrent axis).stateEnterTime ≤ now)
    (ht2 : now - (w.tuneCurrent axis).stateEnterTime < I32) :
    ((autotuneFixedWingUpdate cfg axis now d r out w).tuneCurrent axis).gainD =
      if (100 : ℤ) ≤ (now : ℤ) - ((w.tuneCurrent axis).stateEnterTime : ℤ) then
        max ((w.tuneCurrent axis).gainD * 0.92) 10
      else (w.tuneCurrent axis).gainD := by
  have h : classifyDemand cfg axis d r ≠ (w.tuneCurrent axis).state := by
    rw [hstate]; exact hdiff
  have hos : (markSaturation cfg out (w.tuneCurrent axis)).state =
      DEMAND_OVERSHOOT := by rw [markSaturation_state, hstate]
  rw [fwUpdate_transition cfg axis now d r out w h]
  simp only [Function.update_same, fwBookkeep, fwAdjusted,
    timeDelta_eq now ((w.tuneCurrent axis).stateEnterTime) ht1 ht2,
    fwAdjustGainD_overshoot _ _ hos]
  by_cases hdw : (100 : ℤ) ≤ (now : ℤ) - ((w.tuneCurrent axis).stateEnterTime : ℤ)
  · have hc : AUTOTUNE_FIXED_WING_OVERSHOOT_TIME ≤
        (now : ℤ) - ((w.tuneCurrent axis).stateEnterTime : ℤ) := hdw
    rw [if_pos hc, if_pos hdw]
    simp
  · have hc : ¬(AUTOTUNE_FIXED_WING_OVERSHOOT_TIME ≤
        (now : ℤ) - ((w.tuneCurrent axis).stateEnterTime : ℤ)) := hdw
    rw [if_neg hc, if_neg hdw]
    simp

/-- Witness for C5: Scenario C — an axis dwelling 150 ms in Overshoot with
gainD 50 transitions to Undershoot; the new gainD is exactly 46. -/
theorem autotune_overshoot_exit_witness :
    ((autotuneFixedWingUpdate sampleConfig FD_YAW 150 180 100 0 W5).tuneCurrent FD_YAW).gainD = 46 := by
  have h := autotune_overshoot_exit sampleConfig FD_YAW 150 180 100 0 W5
    (by norm_num [W5]) (by norm_num [classifyDemand, maxDesiredRateOf, sampleConfig, FD_YAW, FD_PITCH, FD_ROLL, FP_PID_LEVEL_P_MULTIPLIER, show ((2 : Fin 3) = 1 ∨ (2 : Fin 3) = 0) = False from by decide]; decide)
    (by norm_num [W5]) (by norm_num [W5, I32])
  rw [h]
  norm_num [W5]

/-- Claim C6: on a per-axis update that exits the Undershoot regime, gainD
becomes the old gainD times 1.05 clamped from above to 200 exactly when
the dwell reached 200 ms and the (possibly just-latched) saturation flag
is false; otherwise, in particular whenever the flag is true, gainD is
unchanged. -/
theorem autotune_undershoot_exit (cfg : AutotuneConfig) (axis : Axis)
    (now : ℕ) (d r out : ℚ) (w : AutotuneWorld)
    (hstate : (w.tuneCurrent axis).state = DEMAND_UNDERSHOOT)
    (hdiff : classifyDemand cfg axis d r ≠ DEMAND_UNDERSHOOT)
    (ht1 : (w.tuneCurrent axis).stateEnterTime ≤ now)
    (ht2 : now - (w.tuneCurrent axis).stateEnterTime < I32) :
    ((autotuneFixedWingUpdate cfg axis now d r out w).tuneCurrent axis).gainD =
      if (200 : ℤ) ≤ (now : ℤ) - ((w.tuneCurrent axis).stateEnterTime : ℤ) ∧
          (markSaturation cfg out (w.tuneCurrent axis)).pidSaturated = false then
        min ((w.tuneCurrent axis).gainD * 1.05) 200
      else (w.tuneCurrent axis).gainD := by
  have h : classifyDemand cfg axis d r ≠ (w.tuneCurrent axis).state := by
    rw [hstate]; exact hdiff
  have hus : (markSaturation cfg out (w.tuneCurrent axis)).state =
      DEMAND_UNDERSHOOT := by rw [markSaturation_state, hstate]
  rw [fwUpdate_transition cfg axis now d r out w h]
  simp only [Function.update_same, fwBookkeep, fwAdjusted,
    timeDelta_eq now ((w.tuneCurrent axis).stateEnterTime) ht1 ht2,
    fwAdjustGainD_undershoot _ _ hus]
  by_cases hdw : (200 : ℤ) ≤ (now : ℤ) - ((w.tuneCurrent axis).stateEnterTime : ℤ) ∧
      (markSaturation cfg out (w.tuneCurrent axis)).pidSaturated = false
  · have hc : AUTOTUNE_FIXED_WING_UNDERSHOOT_TIME ≤
        (now : ℤ) - ((w.tuneCurrent axis).stateEnterTime : ℤ) ∧
        (markSaturation cfg out (w.tuneCurrent axis)).pidSaturated = false := hdw
    rw [if_pos hc, if_pos hdw]
    simp
  · have hc : ¬(AUTOTUNE_FIXED_WING_UNDERSHOOT_TIME ≤
        (now : ℤ) - ((w.tuneCurrent axis).stateEnterTime : ℤ) ∧
        (markSaturation cfg out (w.tuneCurrent axis)).pidSaturated = false) := hdw
    rw [if_neg hc, if_neg hdw]
    simp

/-- Witness for C6: Scenario D — an axis dwelling 250 ms in Undershoot,
unsaturated, with gainD 190 transitions away; the new gainD is exactly
199.5. -/
theorem autotune_undershoot_exit_witness :
    ((autotuneFixedWingUpdate sampleConfig FD_YAW 250 180 200 0 W6).tuneCurrent FD_YAW).gainD = 199.5 := by
  have h := autotune_undershoot_exit sampleConfig FD_YAW 250 180 200 0 W6
    (by norm_num [W6]) (by norm_num [classifyDemand, maxDesiredRateOf, sampleConfig, FD_YAW, FD_PITCH, FD_ROLL, FP_PID_LEVEL_P_MULTIPLIER, show ((2 : Fin 3) = 1 ∨ (2 : Fin 3) = 0) = False from by decide]; decide)
    (by norm_num [W6]) (by norm_num [W6, I32])
  rw [h]
  norm_num [W6, markSaturation, sampleConfig]

/-- Claim C7: whenever a per-axis update performs a gain change (a
dwell-qualified regime exit, i.e. the classification differs from the
stored regime and the adjustment step fires), it derives gainP as exactly
10% of the new gainD and gainI as the 1-second-equivalence scaling of the
new gainD constrained into [1, 50], and pushes the full gain triple of all
three axes to the live controller in one application; when no gain change
occurs, the live controller is not touched and no application is
scheduled. -/
theorem autotune_gain_derivation_and_push (cfg : AutotuneConfig)
    (axis : Axis) (now : ℕ) (d r out : ℚ) (w : AutotuneWorld) :
    ((classifyDemand cfg axis d r ≠ (w.tuneCurrent axis).state ∧
        fwFired cfg out now (w.tuneCurrent axis) = true) →
      (((autotuneFixedWingUpdate cfg axis now d r out w).tuneCurrent axis).gainP =
          ((autotuneFixedWingUpdate cfg axis now d r out w).tuneCurrent axis).gainD * 0.1 ∧
        ((autotuneFixedWingUpdate cfg axis now d r out w).tuneCurrent axis).gainI =
          constrainf
            (((autotuneFixedWingUpdate cfg axis now d r out w).tuneCurrent axis).gainD /
              FP_PID_RATE_FF_MULTIPLIER * 1 * FP_PID_RATE_I_MULTIPLIER) 1 50 ∧
        (∀ ax, (autotuneFixedWingUpdate cfg axis now d r out w).pidBank ax =
          roundedGainsOf
            ((autotuneFixedWingUpdate cfg axis now d r out w).tuneCurrent ax)) ∧
        (autotuneFixedWingUpdate cfg axis now d r out w).scheduledGainsUpdates =
          w.scheduledGainsUpdates + 1)) ∧
    (¬(classifyDemand cfg axis d r ≠ (w.tuneCurrent axis).state ∧
        fwFired cfg out now (w.tuneCurrent axis) = true) →
      ((autotuneFixedWingUpdate cfg axis now d r out w).pidBank = w.pidBank ∧
        (autotuneFixedWingUpdate cfg axis now d r out w).scheduledGainsUpdates =
          w.scheduledGainsUpdates ∧
        ∀ ax, gainsOf ((autotuneFixedWingUpdate cfg axis now d r out w).tuneCurrent ax) =
          gainsOf (w.tuneCurrent ax))) := by
  constructor
  · rintro ⟨hne, hf⟩
    rw [fwUpdate_transition cfg axis now d r out w hne]
    have hadj : fwAdjusted cfg out now (w.tuneCurrent axis) =
        fwDeriveGains (fwAdjustGainD (markSaturation cfg out (w.tuneCurrent axis))
          (timeDelta now (w.tuneCurrent axis).stateEnterTime)).1 := by
      unfold fwAdjusted
      rw [show (fwAdjustGainD (markSaturation cfg out (w.tuneCurrent axis))
          (timeDelta now ((w.tuneCurrent axis).stateEnterTime))).2 = true from hf]
      simp
    refine ⟨?_, ?_, ?_, ?_⟩
    · simp only [Function.update_same, fwBookkeep, hadj]
      simp
    · simp only [Function.update_same, fwBookkeep, hadj]
      simp
    · intro ax
      rw [if_pos hf]
      by_cases hax : ax = axis
      · subst hax
        simp only [Function.update_same, fwBookkeep, roundedGainsOf]
      · simp only [Function.update_noteq hax]
    · simp only [if_pos hf]
  · intro hnf
    by_cases hne : classifyDemand cfg axis d r = (w.tuneCurrent axis).state
    · rw [fwUpdate_no_transition cfg axis now d r out w hne]
      refine ⟨rfl, rfl, fun ax => ?_⟩
      by_cases hax : ax = axis
      · subst hax
        simp [Function.update_same, gainsOf]
      · simp [Function.update_noteq hax]
    · have hf : fwFired cfg out now (w.tuneCurrent axis) = false := by
        rcases Bool.eq_false_or_eq_true (fwFired cfg out now (w.tuneCurrent axis)) with h0 | h0
        · exact absurd ⟨hne, h0⟩ hnf
        · exact h0
      rw [fwUpdate_transition cfg axis now d r out w hne]
      have hf2 : (fwAdjustGainD (markSaturation cfg out (w.tuneCurrent axis))
          (timeDelta now ((w.tuneCurrent axis).stateEnterTime))).2 = false := hf
      have hadj : fwAdjusted cfg out now (w.tuneCurrent axis) =
          markSaturation cfg out (w.tuneCurrent axis) := by
        unfold fwAdjusted
        rw [hf2]
        simp only [Bool.false_eq_true, if_false]
        exact fwAdjustGainD_of_not_updated _ _ hf2
      refine ⟨?_, ?_, fun ax => ?_⟩
      · simp [hf]
      · simp [hf]
      · by_cases hax : ax = axis
        · subst hax
          simp [Function.update_same, fwBookkeep, hadj, gainsOf]
        · simp [Function.update_noteq hax]

/-- Witness for C7: the Scenario C transition fires, derives gainP = 4.6
from the new gainD = 46, and schedules exactly one full-bank push. -/
theorem autotune_gain_derivation_and_push_witness :
    (classifyDemand sampleConfig FD_YAW 180 100 ≠ (W5.tuneCurrent FD_YAW).state ∧
      fwFired sampleConfig 0 150 (W5.tuneCurrent FD_YAW) = true) ∧
    (((autotuneFixedWingUpdate sampleConfig FD_YAW 150 180 100 0 W5).tuneCurrent FD_YAW).gainP =
        ((autotuneFixedWingUpdate sampleConfig FD_YAW 150 180 100 0 W5).tuneCurrent FD_YAW).gainD * 0.1 ∧
      ((autotuneFixedWingUpdate sampleConfig FD_YAW 150 180 100 0 W5).tuneCurrent FD_YAW).gainI =
        constrainf
          (((autotuneFixedWingUpdate sampleConfig FD_YAW 150 180 100 0 W5).tuneCurrent FD_YAW).gainD /
            FP_PID_RATE_FF_MULTIPLIER * 1 * FP_PID_RATE_I_MULTIPLIER) 1 50 ∧
      (∀ ax, (autotuneFixedWingUpdate sampleConfig FD_YAW 150 180 100 0 W5).pidBank ax =
        roundedGainsOf
          ((autotuneFixedWingUpdate sampleConfig FD_YAW 150 180 100 0 W5).tuneCurrent ax)) ∧
      (autotuneFixedWingUpdate sampleConfig FD_YAW 150 180 100 0 W5).scheduledGainsUpdates =
        W5.scheduledGainsUpdates + 1) := by
  have hne : classifyDemand sampleConfig FD_YAW 180 100 ≠ (W5.tuneCurrent FD_YAW).state := by
    norm_num [classifyDemand, maxDesiredRateOf, sampleConfig, FD_YAW, FD_PITCH, FD_ROLL,
      FP_PID_LEVEL_P_MULTIPLIER, W5,
      show ((2 : Fin 3) = 1 ∨ (2 : Fin 3) = 0) = False from by decide]
    decide
  have hf : fwFired sampleConfig 0 150 (W5.tuneCurrent FD_YAW) = true := by
    have hos : (markSaturation sampleConfig 0 (W5.tuneCurrent FD_YAW)).state =
        DEMAND_OVERSHOOT := by
      rw [markSaturation_state]; norm_num [W5]
    unfold fwFired
    rw [fwAdjustGainD_overshoot _ _ hos]
    rw [if_pos]
    have htd : timeDelta 150 ((W5.tuneCurrent FD_YAW).stateEnterTime) = 150 := by
      rw [show (W5.tuneCurrent FD_YAW).stateEnterTime = 0 from rfl]
      rw [timeDelta_eq 150 0 (by norm_num) (by norm_num [I32])]
      norm_num
    rw [htd]
    norm_num [AUTOTUNE_FIXED_WING_OVERSHOOT_TIME]
  exact ⟨⟨hne, hf⟩,
    (autotune_gain_derivation_and_push sampleConfig FD_YAW 150 180 100 0 W5).1 ⟨hne, hf⟩⟩

/-- Claim C10: every gain application writes, per axis, the
nearest-integer rounding of the floating-point working gains while
leaving the working snapshots untouched; the rounding error is at most
1/2; and a session restart reseeds the working gains from the live
controller's (rounded integer) values. -/
theorem autotune_lrintf_rounding :
    (∀ (data : Axis → pidAutotuneData_t) (w : AutotuneWorld) (axis : Axis),
      (autotuneUpdateGains data w).pidBank axis = roundedGainsOf (data axis) ∧
      (autotuneUpdateGains data w).tuneCurrent = w.tuneCurrent ∧
      (autotuneUpdateGains data w).tuneSaved = w.tuneSaved) ∧
    (∀ q : ℚ, |q - (lrintf q : ℚ)| ≤ 1 / 2) ∧
    (∀ (now : ℕ) (w : AutotuneWorld) (axis : Axis),
      gainsOf ((autotuneStart now w).tuneCurrent axis) =
        (((w.pidBank axis).P : ℚ), ((w.pidBank axis).I : ℚ),
          ((w.pidBank axis).D : ℚ))) := by
  refine ⟨fun data w axis => ⟨rfl, rfl, rfl⟩, fun q => ?_, fun now w axis => rfl⟩
  simpa [lrintf] using abs_sub_round q

/-- Claim C8: over any sequence of per-axis calls in which every regime
transition happens with a dwell strictly below the exited regime's floor
(100 ms out of Overshoot, 200 ms out of Undershoot, any dwell out of
TooLow), no gain value ever changes; and every transition still stores the
new regime, resets the regime entry time to the call's time, and clears
the saturation latch. -/
theorem autotune_dwell_damping (cfg : AutotuneConfig) (w : AutotuneWorld)
    (cs : List FwCall) (h : allBelowDwellFloorB cfg w cs = true) :
    (∀ ax, gainsOf ((runFwCalls cfg w cs).tuneCurrent ax) =
      gainsOf (w.tuneCurrent ax)) ∧
    (∀ (v : AutotuneWorld) (c : FwCall),
      classifyDemand cfg c.axis c.desiredRateDps c.reachedRateDps ≠
        (v.tuneCurrent c.axis).state →
      ((applyFwCall cfg v c).tuneCurrent c.axis).state =
        classifyDemand cfg c.axis c.desiredRateDps c.reachedRateDps ∧
      ((applyFwCall cfg v c).tuneCurrent c.axis).stateEnterTime = c.now ∧
      ((applyFwCall cfg v c).tuneCurrent c.axis).pidSaturated = false) :=
  ⟨runFwCalls_gains_preserved cfg cs w h,
    fun v c hne => fwStep_bookkeeping cfg v c hne⟩

/-- Witness for C8: from the Overshoot world, a transition to Undershoot
after a 50 ms dwell followed by a transition back to Overshoot after a
100 ms dwell leaves every gain of every axis unchanged. -/
theorem autotune_dwell_damping_witness :
    allBelowDwellFloorB sampleConfig W5
      [⟨FD_YAW, 50, 180, 100, 0⟩, ⟨FD_YAW, 150, 180, 200, 0⟩] = true ∧
    (∀ ax, gainsOf ((runFwCalls sampleConfig W5
        [⟨FD_YAW, 50, 180, 100, 0⟩, ⟨FD_YAW, 150, 180, 200, 0⟩]).tuneCurrent ax) =
      gainsOf (W5.tuneCurrent ax)) := by
  have h : allBelowDwellFloorB sampleConfig W5
      [⟨FD_YAW, 50, 180, 100, 0⟩, ⟨FD_YAW, 150, 180, 200, 0⟩] = true := by
    norm_num [allBelowDwellFloorB, belowDwellFloorB, applyFwCall,
      autotuneFixedWingUpdate, classifyDemand, maxDesiredRateOf, markSaturation,
      fwAdjustGainD, fwDeriveGains, timeDelta, uSub32, toInt32, U32, I32,
      sampleConfig, W5, Wsample, FD_YAW, FD_PITCH, FD_ROLL,
      AUTOTUNE_FIXED_WING_OVERSHOOT_TIME, AUTOTUNE_FIXED_WING_UNDERSHOOT_TIME,
      Function.update_same, Bool.and_eq_true, decide_eq_true_eq,
      show ((2 : Fin 3) = 1 ∨ (2 : Fin 3) = 0) = False from by decide,
      show (DEMAND_UNDERSHOOT = DEMAND_OVERSHOOT) = False from by simp,
      show (DEMAND_OVERSHOOT = DEMAND_UNDERSHOOT) = False from by simp]
  exact ⟨h, (autotune_dwell_damping sampleConfig W5 _ h).1⟩

/-- Claim C9 as stated is false on the code: a session started from a live
controller whose D gain is 5 (below the D floor of 10) later writes that
out-of-range 5 back to the live controller on abort — the session seed is
never clamped. -/
theorem autotune_gain_range_counterexample :
    (autotuneUpdateState false true 100
        (autotuneUpdateState true true 0 W9)).scheduledGainsUpdates =
      W9.scheduledGainsUpdates + 1 ∧
    ((autotuneUpdateState false true 100
        (autotuneUpdateState true true 0 W9)).pidBank FD_ROLL).D = 5 ∧
    ¬((10 : ℤ) ≤ ((autotuneUpdateState false true 100
        (autotuneUpdateState true true 0 W9)).pidBank FD_ROLL).D) := by
  norm_num [autotuneUpdateState, autotuneStart, autotuneCheckUpdateGains,
    autotuneUpdateGains, W9, WsampleOff, Wsample, lrintf, round_intCast]

/-- Claim C9 (amended): provided the session's snapshots and the live
bank hold in-range gains (gainD in [10, 200], gainI in [1, 50]) — in
particular that the gains seeded from the live controller at session start
were in range — every operation of the subsystem (per-axis update, commit,
session update including abort) keeps both snapshots and everything it
writes to the live controller within those ranges. -/
theorem autotune_gain_range_invariant (cfg : AutotuneConfig) (axis : Axis)
    (box armed : Bool) (now1 now2 now3 : ℕ) (d r out : ℚ)
    (w : AutotuneWorld) (hc : tuneGainsInRange w) (hb : bankGainsInRange w) :
    (tuneGainsInRange (autotuneFixedWingUpdate cfg axis now1 d r out w) ∧
      bankGainsInRange (autotuneFixedWingUpdate cfg axis now1 d r out w)) ∧
    (tuneGainsInRange (autotuneCheckUpdateGains now2 w) ∧
      bankGainsInRange (autotuneCheckUpdateGains now2 w)) ∧
    (tuneGainsInRange (autotuneUpdateState box armed now3 w) ∧
      bankGainsInRange (autotuneUpdateState box armed now3 w)) :=
  ⟨fwUpdate_range cfg axis now1 d r out w hc hb,
    checkUpdate_range now2 w hc hb,
    updateState_range box armed now3 w hc hb⟩

/-- Witness for the amended C9 at a concrete in-range world. -/
theorem autotune_gain_range_invariant_witness :
    (tuneGainsInRange Wsample ∧ bankGainsInRange Wsample) ∧
    ((tuneGainsInRange (autotuneFixedWingUpdate sampleConfig FD_ROLL 9 0 0 0 Wsample) ∧
      bankGainsInRange (autotuneFixedWingUpdate sampleConfig FD_ROLL 9 0 0 0 Wsample)) ∧
    (tuneGainsInRange (autotuneCheckUpdateGains 9 Wsample) ∧
      bankGainsInRange (autotuneCheckUpdateGains 9 Wsample)) ∧
    (tuneGainsInRange (autotuneUpdateState true true 9 Wsample) ∧
      bankGainsInRange (autotuneUpdateState true true 9 Wsample))) := by
  have hc : tuneGainsInRange Wsample := by
    intro ax
    refine ⟨?_, ?_⟩ <;> norm_num [Wsample, dataGainsInRange]
  have hb : bankGainsInRange Wsample := by
    intro ax
    norm_num [Wsample]
  exact ⟨⟨hc, hb⟩,
    autotune_gain_range_invariant sampleConfig FD_ROLL true true 9 9 9 0 0 0
      Wsample hc hb⟩

end PidAutotune

